import Mathlib

set_option maxRecDepth 100000

/-!
Verification of the LiteX Lattice Oxide toolchain backend
(`litex/build/lattice/oxide.py`).

The development shallowly embeds the script/template generation and
process-running core of `LatticeOxideToolchain`:

* `renderLine` / `renderAll` embed Python's `str.format` applied to the
  template strings, with the template strings decomposed into literal and
  placeholder chunks (`Chunk`); `lineSrc` recovers the original template
  text of a chunk line, so each chunk list is checked against the exact
  source string.
* `_yosys_import_sources` embeds the source importer.
* `build_project` embeds the synthesis-script generator.
* `build_script` embeds the build driver-script generator, parameterized by
  `sys.platform` and the git revision string.
* `run_script` embeds the process runner; spawned child processes are
  returned as an explicit list of argument vectors so that "no process is
  spawned" is a provable statement.

Fallible operations (`str.format` with a missing keyword raises `KeyError`;
`run_script` raises `OSError`) are embedded as `Option` / `Except`.
-/

namespace Oxide

/-! ## Generic string helpers -/

/-- Number of (possibly overlapping) occurrences of `pat` in a char list. -/
def countOccL (pat : List Char) : List Char → Nat
  | [] => 0
  | c :: rest => (if pat.isPrefixOf (c :: rest) then 1 else 0) + countOccL pat rest

/-- Number of occurrences of `pat` inside `s`. -/
def countOccS (pat s : String) : Nat := countOccL pat.data s.data

/-- Does `pat` occur inside `s`? -/
def containsS (pat s : String) : Bool := countOccS pat s != 0

/-- Does `s` start with `pat`? -/
def startsWithS (pat s : String) : Bool := List.isPrefixOf pat.data s.data

/-- Does `s` end with `pat`? -/
def endsWithS (pat s : String) : Bool := List.isSuffixOf pat.data s.data

/-- Split a char list at newline characters (the list of lines). -/
def splitNL : List Char → List (List Char)
  | [] => [[]]
  | c :: rest =>
    if c = '\n' then [] :: splitNL rest
    else
      match splitNL rest with
      | [] => [[c]]
      | l :: ls => (c :: l) :: ls

/-- The `i`-th line of `s` (empty when out of range). -/
def lineAt (s : String) (i : Nat) : String := ⟨(splitNL s.data).getD i []⟩

/-- Python's `sep.join(xs)`. -/
def strJoin (sep : String) : List String → String
  | [] => ""
  | [s] => s
  | s :: rest => s ++ sep ++ strJoin sep rest

/-- Left-to-right concatenation of a list of strings (Python `+=` in a loop). -/
def strConcat (xs : List String) : String := xs.foldl (fun acc s => acc ++ s) ""

/-- Holds when `s` contains neither an opening nor a closing curly brace, i.e. no text
that could be mistaken for an unsubstituted `format` placeholder. -/
def bracesFree (s : String) : Bool := s.data.all (fun c => c != '\x7b' && c != '\x7d')

/-! ## Embedding of `str.format` template rendering

A Python format string is decomposed into chunks: literal text and named
placeholders.  Rendering substitutes each placeholder by looking its name up
in the keyword-argument list; a missing name is Python's `KeyError`, embedded
as `none`. -/

/-- One chunk of a format string: literal text or a `{name}` placeholder. -/
inductive Chunk
  | lit (s : String)
  | ph (name : String)
deriving DecidableEq

/-- The source text a chunk stands for (placeholders print as `{name}`). -/
def chunkSrc : Chunk → String
  | Chunk.lit s => s
  | Chunk.ph n => "\x7b" ++ n ++ "\x7d"

/-- The source text of a whole template line. -/
def lineSrc (cs : List Chunk) : String := strConcat (cs.map chunkSrc)

/-- Embedding of `str.format`: substitute every placeholder of the line, failing
(`KeyError`) when a placeholder's name has no supplied value. -/
def renderLine : List Chunk → List (String × String) → Option String
  | [], _ => some ""
  | Chunk.lit t :: rest, ps => (renderLine rest ps).map (fun r => t ++ r)
  | Chunk.ph n :: rest, ps =>
    match ps.lookup n with
    | none => none
    | some v => (renderLine rest ps).map (fun r => v ++ r)

/-- Render every line of a template with the same parameters. -/
def renderAll : List (List Chunk) → List (String × String) → Option (List String)
  | [], _ => some []
  | l :: rest, ps =>
    match renderLine l ps, renderAll rest ps with
    | some s, some ss => some (s :: ss)
    | _, _ => none

/-- Every literal chunk of the line is brace-free. -/
def lineLitsFree (cs : List Chunk) : Bool :=
  cs.all (fun c => match c with | Chunk.lit t => bracesFree t | Chunk.ph _ => true)

/-! ## The fixed templates (`LatticeOxideToolchain._yosys_template` and
`LatticeOxideToolchain._build_template`) -/

/-- The `_yosys_template` constant, decomposed into chunks.  `yosys_template_src` below
checks the decomposition against the exact source strings. -/
def yosys_template : List (List Chunk) :=
  [[Chunk.lit "verilog_defaults -push"],
   [Chunk.lit "verilog_defaults -add -defer"],
   [Chunk.ph "read_files"],
   [Chunk.lit "verilog_defaults -pop"],
   [Chunk.lit "attrmap -tocase keep -imap keep=\"true\" keep=1 -imap keep=\"false\" keep=0 -remove keep=0"],
   [Chunk.lit "synth_nexus -flatten ", Chunk.ph "nwl", Chunk.lit " ", Chunk.ph "abc",
    Chunk.lit " -json ", Chunk.ph "build_name", Chunk.lit ".json -top ", Chunk.ph "build_name"]]

/-- The `_build_template` constant, decomposed into chunks.  The second source string uses
a backslash line continuation inside the literal, so its text contains five
consecutive spaces before `--device`.  `build_template_src` below checks the
decomposition against the exact source strings. -/
def build_template : List (List Chunk) :=
  [[Chunk.lit "yosys -l ", Chunk.ph "build_name", Chunk.lit ".rpt ", Chunk.ph "build_name",
    Chunk.lit ".ys"],
   [Chunk.lit "nextpnr-nexus --json ", Chunk.ph "build_name", Chunk.lit ".json --pdc ",
    Chunk.ph "build_name", Chunk.lit ".pdc --fasm ", Chunk.ph "build_name",
    Chunk.lit ".fasm     --device ", Chunk.ph "device", Chunk.lit " ", Chunk.ph "timefailarg",
    Chunk.lit " ", Chunk.ph "ignoreloops", Chunk.lit " --seed ", Chunk.ph "seed"],
   [Chunk.lit "prjoxide pack ", Chunk.ph "build_name", Chunk.lit ".fasm ", Chunk.ph "build_name",
    Chunk.lit ".bit"]]

/-! ## Source importer (`_yosys_import_sources`) -/

/-- The `includes` accumulator: one ` -I<path>` fragment per include path. -/
def yosys_includes (include_paths : List String) : String :=
  include_paths.foldl (fun includes path => includes ++ " -I" ++ path) ""

/-- The `reads` list built by the loop of `_yosys_import_sources`: one
`read_...` directive per `(filename, language, library)` source tuple, where
a `"systemverilog"` language is replaced by `"verilog -sv"`. -/
def yosys_import_reads (include_paths : List String)
    (sources : List (String × String × String)) : List String :=
  sources.foldl
    (fun reads fl =>
      reads ++ ["read_" ++ (if fl.2.1 = "systemverilog" then "verilog -sv" else fl.2.1) ++
        yosys_includes include_paths ++ " " ++ fl.1])
    []

/-- Embedding of `_yosys_import_sources`: the read directives joined by newlines. -/
def _yosys_import_sources (include_paths : List String)
    (sources : List (String × String × String)) : String :=
  strJoin "\n" (yosys_import_reads include_paths sources)

/-- Modelled from the claim's words (refinement reference, not from the
source): the read directive a single source file should produce — a
`read_verilog -sv` invocation for the `"systemverilog"` dialect, and a
verbatim `read_<dialect>` invocation for every other dialect. -/
def spec_read_directive (includes : String) (src : String × String × String) : String :=
  if src.2.1 = "systemverilog" then "read_verilog -sv" ++ includes ++ " " ++ src.1
  else "read_" ++ src.2.1 ++ includes ++ " " ++ src.1

/-! ## Synthesis script generation (`build_project`) -/

/-- The keyword arguments passed to `format` for every `_yosys_template`
line inside `build_project`. -/
def yosys_params (nowidelut abc9 : Bool) (build_name read_files : String) :
    List (String × String) :=
  [("build_name", build_name),
   ("nwl", if nowidelut then "-nowidelut" else ""),
   ("abc", if abc9 then "-abc9" else ""),
   ("read_files", read_files)]

/-- Embedding of `build_project`: renders `_yosys_template` and produces the synthesis
script file `<build_name>.ys` together with its contents (`none` embeds the
`KeyError` of a missing format parameter). -/
def build_project (nowidelut abc9 : Bool) (build_name : String)
    (include_paths : List String) (sources : List (String × String × String)) :
    Option (String × String) :=
  match renderAll yosys_template
      (yosys_params nowidelut abc9 build_name (_yosys_import_sources include_paths sources)) with
  | some ys => some (build_name ++ ".ys", strJoin "\n" ys)
  | none => none

/-- The text of the generated synthesis script (empty on rendering failure). -/
def build_project_text (nowidelut abc9 : Bool) (build_name : String)
    (include_paths : List String) (sources : List (String × String × String)) : String :=
  ((build_project nowidelut abc9 build_name include_paths sources).map Prod.snd).getD ""

/-! ## Build driver script generation (`build_script`) -/

/-- The `sys.platform` values treated as the Windows family. -/
def windows_platforms : List String := ["win32", "cygwin"]

/-- Each `_build_template` line with `"{fail_stmt}\n"` appended
(`s_fail = s + "{fail_stmt}\n"` in the source). -/
def build_script_fail_lines : List (List Chunk) :=
  build_template.map (fun s => s ++ [Chunk.ph "fail_stmt", Chunk.lit "\n"])

/-- The keyword arguments passed to `format` for every build-template line:
build name, device (suffixed `ES` for engineering-sample parts), the timing
flag (present unless strict), the loop flag (present when ignoring loops),
the dialect's fail statement and the stringified seed. -/
def build_script_params (build_name device : String) (timingstrict ignoreloops es_device : Bool)
    (seed : Nat) (fail_stmt : String) : List (String × String) :=
  [("build_name", build_name),
   ("device", device ++ (if es_device then "ES" else "")),
   ("timefailarg", if !timingstrict then "--timing-allow-fail" else ""),
   ("ignoreloops", if ignoreloops then "--ignore-loops" else ""),
   ("fail_stmt", fail_stmt),
   ("seed", toString seed)]

/-- The rendered build-template lines (each already carries its appended fail
statement and trailing newline), as accumulated by the loop of
`build_script`. -/
def build_script_lines (sys_platform build_name device : String)
    (timingstrict ignoreloops es_device : Bool) (seed : Nat) : Option (List String) :=
  renderAll build_script_fail_lines
    (build_script_params build_name device timingstrict ignoreloops es_device seed
      (if sys_platform ∈ windows_platforms then " || exit /b" else ""))

/-- Embedding of `build_script`: produces the driver script's file name
(`build_<build_name>.bat` on the Windows family, `build_<build_name>.sh`
otherwise) and its contents (dialect header followed by the rendered
lines). -/
def build_script (sys_platform rev build_name device : String)
    (timingstrict ignoreloops es_device : Bool) (seed : Nat) : Option (String × String) :=
  match build_script_lines sys_platform build_name device timingstrict ignoreloops es_device seed with
  | some ls =>
    some ("build_" ++ build_name ++ (if sys_platform ∈ windows_platforms then ".bat" else ".sh"),
      (if sys_platform ∈ windows_platforms then
        "@echo off\nrem Autogenerated by LiteX / git: " ++ rev ++ "\n\n"
      else
        "# Autogenerated by LiteX / git: " ++ rev ++ "\nset -e\n") ++ strConcat ls)
  | none => none

/-- The text of the generated driver script (empty on rendering failure). -/
def build_script_text (sys_platform rev build_name device : String)
    (timingstrict ignoreloops es_device : Bool) (seed : Nat) : String :=
  ((build_script sys_platform rev build_name device timingstrict ignoreloops es_device seed).map
    Prod.snd).getD ""

/-! ## Process runner (`run_script`) -/

/-- A raised Python exception: its type name and its message. -/
structure PyExc where
  ty : String
  msg : String
deriving DecidableEq

/-- The environment-error message of `run_script` (built by `msg = ...` then
`msg += ...` in the source). -/
def toolchain_missing_msg : String :=
  "Unable to find Yosys/Nextpnr toolchain, please:\n" ++
  "- Add Yosys/Nextpnr toolchain to your $PATH."

/-- The execution-error message of `run_script`. -/
def script_exec_error_msg : String :=
  "Error occured during Yosys/Nextpnr's script execution."

/-- Embedding of `run_script`: given the platform, the `shutil.which` results for `yosys`
and `nextpnr-nexus`, the exit status the child process would return, and the
script name, produce the outcome together with the list of spawned child
process argument vectors (`subprocess.call` invocations). -/
def run_script (sys_platform : String) (which_yosys which_nextpnr : Option String)
    (call_exit : Int) (script : String) : Except PyExc Unit × List (List String) :=
  if which_yosys = none ∨ which_nextpnr = none then
    (Except.error ⟨"OSError", toolchain_missing_msg⟩, [])
  else if call_exit ≠ 0 then
    (Except.error ⟨"OSError", script_exec_error_msg⟩,
     [(if sys_platform ∈ windows_platforms then ["cmd", "/c"] else ["bash"]) ++ [script]])
  else
    (Except.ok (),
     [(if sys_platform ∈ windows_platforms then ["cmd", "/c"] else ["bash"]) ++ [script]])

/-! ## Output artifacts -/

/-- Embedding of `build_io_constraints`: the constraint file name and its format label. -/
def build_io_constraints (build_name : String) : String × String :=
  (build_name ++ ".pdc", "PDC")

/-- The output file paths of one build, all derived from `build_name`
(`ext` is the driver-script extension, `".sh"` or `".bat"`). -/
def build_artifacts (build_name ext : String) : List String :=
  [build_name ++ ".ys", build_name ++ ".rpt", build_name ++ ".pdc", build_name ++ ".json",
   build_name ++ ".fasm", build_name ++ ".bit", "build_" ++ build_name ++ ext]

/-- Neither of the two strings, reversed, is a prefix of the other reversed:
two strings ending like this can never make equal append results whatever is
put in front of them. -/
def revPrefixIncompat (s t : String) : Prop :=
  ¬ s.data.reverse <+: t.data.reverse ∧ ¬ t.data.reverse <+: s.data.reverse

/-! ## Template/source correspondence

The chunk decompositions above, printed back, are exactly the template
strings of the source file. -/

/-- The chunk list `yosys_template` decomposes exactly the `_yosys_template` strings of the
source. -/
theorem yosys_template_src :
    yosys_template.map lineSrc =
      ["verilog_defaults -push",
       "verilog_defaults -add -defer",
       "{read_files}",
       "verilog_defaults -pop",
       "attrmap -tocase keep -imap keep=\"true\" keep=1 -imap keep=\"false\" keep=0 -remove keep=0",
       "synth_nexus -flatten {nwl} {abc} -json {build_name}.json -top {build_name}"] := by
  decide

/-- The chunk list `build_template` decomposes exactly the `_build_template` strings of the
source (the backslash line continuation of the second string collapses to
five spaces). -/
theorem build_template_src :
    build_template.map lineSrc =
      ["yosys -l {build_name}.rpt {build_name}.ys",
       "nextpnr-nexus --json {build_name}.json --pdc {build_name}.pdc --fasm {build_name}.fasm     --device {device} {timefailarg} {ignoreloops} --seed {seed}",
       "prjoxide pack {build_name}.fasm {build_name}.bit"] := by
  decide

/-! ## Generic string lemmas -/

theorem str_data_inj {s t : String} (h : s.data = t.data) : s = t := by
  cases s; cases t; cases h; rfl

theorem str_data_append (s t : String) : (s ++ t).data = s.data ++ t.data := rfl

theorem eq_of_append_right {x y : String} (s : String) (h : x ++ s = y ++ s) : x = y := by
  apply str_data_inj
  have hd : x.data ++ s.data = y.data ++ s.data := by
    have h2 := congrArg String.data h
    simpa [str_data_append] using h2
  exact List.append_cancel_right hd

theorem eq_of_append_left {x y : String} (p : String) (h : p ++ x = p ++ y) : x = y := by
  apply str_data_inj
  have hd : p.data ++ x.data = p.data ++ y.data := by
    have h2 := congrArg String.data h
    simpa [str_data_append] using h2
  exact List.append_cancel_left hd

theorem ne_of_revPrefixIncompat (x y s t : String) (hst : revPrefixIncompat s t) :
    x ++ s ≠ y ++ t := by
  intro h
  have hd : x.data ++ s.data = y.data ++ t.data := by
    have h2 := congrArg String.data h
    simpa [str_data_append] using h2
  have hrev : s.data.reverse ++ x.data.reverse = t.data.reverse ++ y.data.reverse := by
    have h2 := congrArg List.reverse hd
    simpa [List.reverse_append] using h2
  have h1 : s.data.reverse <+: s.data.reverse ++ x.data.reverse := List.prefix_append _ _
  have h2 : t.data.reverse <+: s.data.reverse ++ x.data.reverse := by
    rw [hrev]; exact List.prefix_append _ _
  rcases List.prefix_or_prefix_of_prefix h1 h2 with hp | hp
  · exact hst.1 hp
  · exact hst.2 hp

/-! ## C3: source import -/

/-- The loop of `_yosys_import_sources`, with any accumulator, appends one
directive per source in order. -/
theorem yosys_import_reads_loop (include_paths : List String) :
    ∀ (sources : List (String × String × String)) (acc : List String),
      sources.foldl
        (fun reads fl =>
          reads ++ ["read_" ++ (if fl.2.1 = "systemverilog" then "verilog -sv" else fl.2.1) ++
            yosys_includes include_paths ++ " " ++ fl.1])
        acc =
      acc ++ sources.map (spec_read_directive (yosys_includes include_paths)) := by
  intro sources
  induction sources with
  | nil => intro acc; simp
  | cons hd tl ih =>
    intro acc
    have hdir :
        "read_" ++ (if hd.2.1 = "systemverilog" then "verilog -sv" else hd.2.1) ++
            yosys_includes include_paths ++ " " ++ hd.1 =
          spec_read_directive (yosys_includes include_paths) hd := by
      by_cases h : hd.2.1 = "systemverilog"
      · rw [if_pos h]
        unfold spec_read_directive
        rw [if_pos h]
        have : ("read_" ++ "verilog -sv" : String) = "read_verilog -sv" := rfl
        rw [this]
      · rw [if_neg h]
        unfold spec_read_directive
        rw [if_neg h]
    simp only [List.foldl_cons, List.map_cons]
    rw [hdir, ih]
    simp

/-- C3: `_yosys_import_sources` emits exactly one read directive per source
file, in input order; a `"systemverilog"` dialect yields a
`read_verilog -sv` directive, and every other dialect string is passed
through verbatim into the directive name (this is what
`spec_read_directive`, written from the claim, states). -/
theorem C3_import_order_and_dialects :
    ∀ (include_paths : List String) (sources : List (String × String × String)),
      yosys_import_reads include_paths sources =
        sources.map (spec_read_directive (yosys_includes include_paths)) ∧
      (yosys_import_reads include_paths sources).length = sources.length ∧
      _yosys_import_sources include_paths sources =
        strJoin "\n" (sources.map (spec_read_directive (yosys_includes include_paths))) := by
  intro include_paths sources
  have h := yosys_import_reads_loop include_paths sources []
  have hr : yosys_import_reads include_paths sources =
      sources.map (spec_read_directive (yosys_includes include_paths)) := by
    unfold yosys_import_reads
    rw [h]
    simp
  refine ⟨hr, ?_, ?_⟩
  · rw [hr]; simp
  · unfold _yosys_import_sources
    rw [hr]

/-! ## C4: synthesis command flags -/

/-- C4: for every combination of the two synthesis options, the rendered
`synth_nexus` line of the synthesis script contains `-nowidelut` exactly once
when the wide-LUT-disable option is set and not at all otherwise, and
contains `-abc9` exactly once when the ABC9 option is set and not at all
otherwise. -/
theorem C4_synth_flags :
    ∀ (nowidelut abc9 : Bool),
      startsWithS "synth_nexus"
        (lineAt (build_project_text nowidelut abc9 "top" [] [("top.v", "verilog", "work")]) 5) =
        true ∧
      countOccS "-nowidelut"
        (lineAt (build_project_text nowidelut abc9 "top" [] [("top.v", "verilog", "work")]) 5) =
        (if nowidelut then 1 else 0) ∧
      countOccS "-abc9"
        (lineAt (build_project_text nowidelut abc9 "top" [] [("top.v", "verilog", "work")]) 5) =
        (if abc9 then 1 else 0) := by
  decide

/-! ## C5: place-and-route command flags -/

/-- C5: for every combination of build options, the `nextpnr-nexus` line of
the driver script omits `--timing-allow-fail` exactly when the build is
timing-strict, and contains `--ignore-loops` exactly when combinational
loops are to be ignored. -/
theorem C5_pnr_flags :
    ∀ (timingstrict ignoreloops es_device : Bool),
      startsWithS "nextpnr-nexus"
        (lineAt (build_script_text "linux" "0123abcd" "top" "LIFCL-40-9BG400C"
          timingstrict ignoreloops es_device 1) 3) = true ∧
      countOccS "--timing-allow-fail"
        (lineAt (build_script_text "linux" "0123abcd" "top" "LIFCL-40-9BG400C"
          timingstrict ignoreloops es_device 1) 3) = (if timingstrict then 0 else 1) ∧
      countOccS "--ignore-loops"
        (lineAt (build_script_text "linux" "0123abcd" "top" "LIFCL-40-9BG400C"
          timingstrict ignoreloops es_device 1) 3) = (if ignoreloops then 1 else 0) := by
  decide

/-! ## C1: missing toolchain -/

/-- C1: on every host platform and in every PATH environment in which either
`yosys` or `nextpnr-nexus` is not resolvable, `run_script` raises an
`OSError` whose message names the required toolchain and instructs the
operator to extend the search path, and no child process is spawned. -/
theorem C1_missing_toolchain :
    ∀ (sys_platform : String) (which_yosys which_nextpnr : Option String)
      (call_exit : Int) (script : String),
      which_yosys = none ∨ which_nextpnr = none →
      (run_script sys_platform which_yosys which_nextpnr call_exit script).2 = [] ∧
      (run_script sys_platform which_yosys which_nextpnr call_exit script).1 =
        Except.error ⟨"OSError", toolchain_missing_msg⟩ ∧
      containsS "Yosys/Nextpnr toolchain" toolchain_missing_msg = true ∧
      containsS "Add Yosys/Nextpnr toolchain to your $PATH" toolchain_missing_msg = true := by
  intro sys_platform which_yosys which_nextpnr call_exit script h
  refine ⟨?_, ?_, by decide, by decide⟩ <;>
    simp [run_script, h]

/-- Witness for C1 at a concrete input. -/
theorem C1_missing_toolchain_witness :
    ((none : Option String) = none ∨ (some "/usr/bin/nextpnr-nexus" : Option String) = none) ∧
    ((run_script "linux" none (some "/usr/bin/nextpnr-nexus") 0 "build_top.sh").2 = [] ∧
     (run_script "linux" none (some "/usr/bin/nextpnr-nexus") 0 "build_top.sh").1 =
       Except.error ⟨"OSError", toolchain_missing_msg⟩ ∧
     containsS "Yosys/Nextpnr toolchain" toolchain_missing_msg = true ∧
     containsS "Add Yosys/Nextpnr toolchain to your $PATH" toolchain_missing_msg = true) :=
  ⟨Or.inl rfl,
   C1_missing_toolchain "linux" none (some "/usr/bin/nextpnr-nexus") 0 "build_top.sh" (Or.inl rfl)⟩

/-! ## C2: script exit status

The claim says the execution error references the failing script's name.
The source raises `OSError("Error occured during Yosys/Nextpnr's script
execution.")`: a fixed message that does not contain the script's name, so
the claim is corrected to a fixed, name-free execution error. -/

/-- C2 counterexample: with both tools present and exit status 1, the raised
execution error's message does not contain the script's name
`build_top.sh`. -/
theorem C2_no_script_name_counterexample :
    (run_script "linux" (some "/usr/bin/yosys") (some "/usr/bin/nextpnr-nexus") 1
        "build_top.sh").1 =
      Except.error ⟨"OSError", script_exec_error_msg⟩ ∧
    containsS "build_top.sh" script_exec_error_msg = false := by
  exact ⟨rfl, by decide⟩

/-- C2 (amended): with both executables resolvable, a non-zero exit status
raises an execution `OSError` with the fixed message
`"Error occured during Yosys/Nextpnr's script execution."` (which does not
name the script), and a zero exit status returns without error. -/
theorem C2_exit_status :
    ∀ (sys_platform script wy wn : String) (call_exit : Int),
      (call_exit ≠ 0 →
        (run_script sys_platform (some wy) (some wn) call_exit script).1 =
          Except.error ⟨"OSError", script_exec_error_msg⟩) ∧
      (call_exit = 0 →
        (run_script sys_platform (some wy) (some wn) call_exit script).1 = Except.ok ()) := by
  intro sys_platform script wy wn call_exit
  refine ⟨?_, ?_⟩
  · intro hx
    simp [run_script, hx]
  · intro hx
    simp [run_script, hx]

/-- Witness for C2 at concrete inputs: exit 1 errors, exit 0 succeeds. -/
theorem C2_exit_status_witness :
    (run_script "linux" (some "/usr/bin/yosys") (some "/usr/bin/nextpnr-nexus") 1
        "build_top.sh").1 =
      Except.error ⟨"OSError", script_exec_error_msg⟩ ∧
    (run_script "linux" (some "/usr/bin/yosys") (some "/usr/bin/nextpnr-nexus") 0
        "build_top.sh").1 = Except.ok () :=
  ⟨(C2_exit_status "linux" "build_top.sh" "/usr/bin/yosys" "/usr/bin/nextpnr-nexus" 1).1
      (by decide),
   (C2_exit_status "linux" "build_top.sh" "/usr/bin/yosys" "/usr/bin/nextpnr-nexus" 0).2 rfl⟩

/-! ## C10: both failures share the exception type -/

/-- C10: the environment error (missing executables) and the execution error
(non-zero exit) of `run_script` are both `OSError` instances — equal
exception type names — and are distinguishable only by their messages. -/
theorem C10_single_exception_type :
    ∃ env_exc exec_exc : PyExc,
      (run_script "linux" none none 0 "build_top.sh").1 = Except.error env_exc ∧
      (run_script "linux" (some "/usr/bin/yosys") (some "/usr/bin/nextpnr-nexus") 1
          "build_top.sh").1 = Except.error exec_exc ∧
      env_exc.ty = "OSError" ∧ exec_exc.ty = "OSError" ∧
      env_exc.ty = exec_exc.ty ∧ env_exc.msg ≠ exec_exc.msg :=
  ⟨⟨"OSError", toolchain_missing_msg⟩, ⟨"OSError", script_exec_error_msg⟩,
   rfl, rfl, rfl, rfl, rfl, by decide⟩

/-! ## Platform-abstraction lemmas

`build_script` consults `sys.platform` only through membership in
`windows_platforms`, so every non-Windows platform produces the same script
as `"linux"`. -/

theorem build_script_lines_not_win (sp bn dev : String) (ts il es : Bool) (seed : Nat)
    (hw : sp ∉ windows_platforms) :
    build_script_lines sp bn dev ts il es seed =
      build_script_lines "linux" bn dev ts il es seed := by
  have h2 : ("linux" : String) ∉ windows_platforms := by decide
  simp [build_script_lines, hw, h2]

theorem build_script_not_win (sp rev bn dev : String) (ts il es : Bool) (seed : Nat)
    (hw : sp ∉ windows_platforms) :
    build_script sp rev bn dev ts il es seed =
      build_script "linux" rev bn dev ts il es seed := by
  have h2 : ("linux" : String) ∉ windows_platforms := by decide
  unfold build_script
  rw [build_script_lines_not_win sp bn dev ts il es seed hw]
  simp [hw, h2]

theorem build_script_text_not_win (sp rev bn dev : String) (ts il es : Bool) (seed : Nat)
    (hw : sp ∉ windows_platforms) :
    build_script_text sp rev bn dev ts il es seed =
      build_script_text "linux" rev bn dev ts il es seed := by
  unfold build_script_text
  rw [build_script_not_win sp rev bn dev ts il es seed hw]

/-! ## C6: interpreter dialect -/

/-- C6: on a Windows-family platform the driver script is a `.bat` file and
every rendered template line ends with the batch failure-check fragment
`" || exit /b"` (before its terminating newline); on every other platform it
is a `.sh` file whose header's second line is `set -e` and whose text
nowhere carries the failure-check fragment (the appended fail statement is
empty). -/
theorem C6_script_dialect :
    ∀ (sys_platform : String) (ts il es : Bool),
      (sys_platform ∈ windows_platforms →
        (build_script sys_platform "0123abcd" "top" "LIFCL-40-9BG400C" ts il es 1).map
            Prod.fst = some "build_top.bat" ∧
        ((build_script_lines sys_platform "top" "LIFCL-40-9BG400C" ts il es 1).getD []).all
            (fun l => endsWithS " || exit /b\n" l) = true ∧
        ((build_script_lines sys_platform "top" "LIFCL-40-9BG400C" ts il es 1).getD
            []).length = 3) ∧
      (sys_platform ∉ windows_platforms →
        (build_script sys_platform "0123abcd" "top" "LIFCL-40-9BG400C" ts il es 1).map
            Prod.fst = some "build_top.sh" ∧
        lineAt (build_script_text sys_platform "0123abcd" "top" "LIFCL-40-9BG400C"
            ts il es 1) 1 = "set -e" ∧
        containsS " || exit /b" (build_script_text sys_platform "0123abcd" "top"
            "LIFCL-40-9BG400C" ts il es 1) = false ∧
        ((build_script_lines sys_platform "top" "LIFCL-40-9BG400C" ts il es 1).getD
            []).length = 3) := by
  intro sys_platform ts il es
  constructor
  · intro hw
    have hw2 : sys_platform = "win32" ∨ sys_platform = "cygwin" := by
      simpa [windows_platforms] using hw
    rcases hw2 with rfl | rfl <;> cases ts <;> cases il <;> cases es <;> decide
  · intro hw
    rw [build_script_not_win sys_platform "0123abcd" "top" "LIFCL-40-9BG400C" ts il es 1 hw,
      build_script_text_not_win sys_platform "0123abcd" "top" "LIFCL-40-9BG400C" ts il es 1 hw,
      build_script_lines_not_win sys_platform "top" "LIFCL-40-9BG400C" ts il es 1 hw]
    cases ts <;> cases il <;> cases es <;> decide

/-- Witness for C6 at the concrete platforms `"win32"` and `"linux"`. -/
theorem C6_script_dialect_witness :
    ((build_script "win32" "0123abcd" "top" "LIFCL-40-9BG400C" false false false 1).map
        Prod.fst = some "build_top.bat" ∧
     ((build_script_lines "win32" "top" "LIFCL-40-9BG400C" false false false 1).getD []).all
        (fun l => endsWithS " || exit /b\n" l) = true ∧
     ((build_script_lines "win32" "top" "LIFCL-40-9BG400C" false false false 1).getD
        []).length = 3) ∧
    ((build_script "linux" "0123abcd" "top" "LIFCL-40-9BG400C" false false false 1).map
        Prod.fst = some "build_top.sh" ∧
     lineAt (build_script_text "linux" "0123abcd" "top" "LIFCL-40-9BG400C"
        false false false 1) 1 = "set -e" ∧
     containsS " || exit /b" (build_script_text "linux" "0123abcd" "top"
        "LIFCL-40-9BG400C" false false false 1) = false ∧
     ((build_script_lines "linux" "top" "LIFCL-40-9BG400C" false false false 1).getD
        []).length = 3) :=
  ⟨(C6_script_dialect "win32" false false false).1 (by decide),
   (C6_script_dialect "linux" false false false).2 (by decide)⟩

/-! ## C9: provenance header

The claim says the provenance comment is the first line on both dialects.
On the Windows dialect the first line is `@echo off`; the provenance comment
is the second line there, so the claim is corrected. -/

/-- C9 counterexample: on `"win32"` the driver script's first line is
`@echo off`, which is not a provenance comment (it mentions neither the
generating system nor the revision identifier). -/
theorem C9_first_line_counterexample :
    lineAt (build_script_text "win32" "0123abcd" "top" "LIFCL-40-9BG400C"
      false false false 1) 0 = "@echo off" ∧
    containsS "Autogenerated" (lineAt (build_script_text "win32" "0123abcd" "top"
      "LIFCL-40-9BG400C" false false false 1) 0) = false ∧
    containsS "0123abcd" (lineAt (build_script_text "win32" "0123abcd" "top"
      "LIFCL-40-9BG400C" false false false 1) 0) = false := by
  decide

/-- C9 (amended): on the POSIX dialect the driver script's first line is the
one-line provenance comment naming the generating system and the revision
identifier; on the Windows dialect that provenance comment is the second
line, the first line being `@echo off`. -/
theorem C9_provenance_header :
    ∀ (sys_platform : String) (ts il es : Bool),
      (sys_platform ∈ windows_platforms →
        lineAt (build_script_text sys_platform "0123abcd" "top" "LIFCL-40-9BG400C"
          ts il es 1) 0 = "@echo off" ∧
        lineAt (build_script_text sys_platform "0123abcd" "top" "LIFCL-40-9BG400C"
          ts il es 1) 1 = "rem Autogenerated by LiteX / git: 0123abcd") ∧
      (sys_platform ∉ windows_platforms →
        lineAt (build_script_text sys_platform "0123abcd" "top" "LIFCL-40-9BG400C"
          ts il es 1) 0 = "# Autogenerated by LiteX / git: 0123abcd") := by
  intro sys_platform ts il es
  constructor
  · intro hw
    have hw2 : sys_platform = "win32" ∨ sys_platform = "cygwin" := by
      simpa [windows_platforms] using hw
    rcases hw2 with rfl | rfl <;> cases ts <;> cases il <;> cases es <;> decide
  · intro hw
    rw [build_script_text_not_win sys_platform "0123abcd" "top" "LIFCL-40-9BG400C" ts il es 1 hw]
    cases ts <;> cases il <;> cases es <;> decide

/-- Witness for C9 at the concrete platforms `"win32"` and `"linux"`. -/
theorem C9_provenance_header_witness :
    (lineAt (build_script_text "win32" "0123abcd" "top" "LIFCL-40-9BG400C"
        false false false 1) 0 = "@echo off" ∧
     lineAt (build_script_text "win32" "0123abcd" "top" "LIFCL-40-9BG400C"
        false false false 1) 1 = "rem Autogenerated by LiteX / git: 0123abcd") ∧
    lineAt (build_script_text "linux" "0123abcd" "top" "LIFCL-40-9BG400C"
        false false false 1) 0 = "# Autogenerated by LiteX / git: 0123abcd" :=
  ⟨(C9_provenance_header "win32" false false false).1 (by decide),
   (C9_provenance_header "linux" false false false).2 (by decide)⟩

/-! ## C8: artifact paths of distinct builds are disjoint -/

/-- C8: all seven output artifact paths are derived from `build_name` alone,
and two builds with distinct `build_name` values (with the driver-script
extension being `".sh"` or `".bat"` for each) have disjoint artifact path
sets. -/
theorem C8_artifacts_disjoint :
    ∀ (bn1 bn2 e1 e2 : String),
      e1 ∈ [".sh", ".bat"] → e2 ∈ [".sh", ".bat"] → bn1 ≠ bn2 →
      ∀ p, p ∈ build_artifacts bn1 e1 → p ∉ build_artifacts bn2 e2 := by
  intro bn1 bn2 e1 e2 he1 he2 hne p h1 h2
  have he1' : e1 = ".sh" ∨ e1 = ".bat" := by simpa using he1
  have he2' : e2 = ".sh" ∨ e2 = ".bat" := by simpa using he2
  rcases he1' with rfl | rfl <;> rcases he2' with rfl | rfl <;>
    simp only [build_artifacts, List.mem_cons, List.not_mem_nil, or_false] at h1 h2 <;>
    rcases h1 with rfl | rfl | rfl | rfl | rfl | rfl | rfl <;>
    rcases h2 with h | h | h | h | h | h | h <;>
    first
    | exact hne (eq_of_append_right _ h)
    | exact hne (eq_of_append_left "build_" (eq_of_append_right _ h))
    | exact ne_of_revPrefixIncompat _ _ _ _ ⟨by decide, by decide⟩ h

/-- Witness for C8 at concrete distinct build names. -/
theorem C8_artifacts_disjoint_witness :
    ("top" : String) ≠ "core" ∧
    "top.ys" ∈ build_artifacts "top" ".sh" ∧
    "top.ys" ∉ build_artifacts "core" ".sh" :=
  ⟨by decide, by decide,
   C8_artifacts_disjoint "top" "core" ".sh" ".sh" (by decide) (by decide) (by decide)
     "top.ys" (by decide)⟩

/-! ## C7: rendering substitutes every placeholder -/

theorem lookup_val_mem :
    ∀ (ps : List (String × String)) (n v : String),
      ps.lookup n = some v → v ∈ ps.map Prod.snd := by
  intro ps
  induction ps with
  | nil => intro n v h; simp [List.lookup] at h
  | cons kv rest ih =>
    intro n v h
    rw [List.lookup] at h
    by_cases hk : n == kv.1
    · rw [hk] at h
      simp only [Option.some.injEq] at h
      simp [← h]
    · rw [Bool.not_eq_true] at hk
      rw [hk] at h
      simp [ih n v h]

theorem bracesFree_append (s t : String) :
    bracesFree (s ++ t) = (bracesFree s && bracesFree t) := by
  simp [bracesFree, str_data_append, List.all_append]

/-- Rendering a line whose literals are brace-free with brace-free parameter
values yields brace-free text: no unsubstituted placeholder can remain. -/
theorem renderLine_bracesFree :
    ∀ (cs : List Chunk) (ps : List (String × String)) (s : String),
      renderLine cs ps = some s → lineLitsFree cs = true →
      (∀ v ∈ ps.map Prod.snd, bracesFree v = true) → bracesFree s = true := by
  intro cs
  induction cs with
  | nil =>
    intro ps s h _ _
    simp only [renderLine, Option.some.injEq] at h
    rw [← h]
    decide
  | cons c rest ih =>
    intro ps s h hl hp
    cases c with
    | lit t =>
      rw [renderLine] at h
      rcases Option.map_eq_some'.mp h with ⟨r, hr, hs⟩
      rw [lineLitsFree, List.all_cons, Bool.and_eq_true] at hl
      rw [← hs, bracesFree_append, Bool.and_eq_true]
      exact ⟨hl.1, ih ps r hr hl.2 hp⟩
    | ph n =>
      rw [renderLine] at h
      cases hlk : ps.lookup n with
      | none => rw [hlk] at h; cases h
      | some v =>
        rw [hlk] at h
        rcases Option.map_eq_some'.mp h with ⟨r, hr, hs⟩
        rw [lineLitsFree, List.all_cons, Bool.and_eq_true] at hl
        rw [← hs, bracesFree_append, Bool.and_eq_true]
        exact ⟨hp v (lookup_val_mem ps n v hlk), ih ps r hr hl.2 hp⟩

theorem renderAll_bracesFree :
    ∀ (tmpl : List (List Chunk)) (ps : List (String × String)) (ls : List String),
      renderAll tmpl ps = some ls → (∀ l ∈ tmpl, lineLitsFree l = true) →
      (∀ v ∈ ps.map Prod.snd, bracesFree v = true) → ∀ s ∈ ls, bracesFree s = true := by
  intro tmpl
  induction tmpl with
  | nil =>
    intro ps ls h _ _ s hs
    simp only [renderAll, Option.some.injEq] at h
    rw [← h] at hs
    exact absurd hs (List.not_mem_nil s)
  | cons l rest ih =>
    intro ps ls h hl hp s hs
    rw [renderAll] at h
    cases h1 : renderLine l ps with
    | none => rw [h1] at h; cases h
    | some r =>
      cases h2 : renderAll rest ps with
      | none => rw [h1, h2] at h; cases h
      | some rs =>
        rw [h1, h2] at h
        simp only [Option.some.injEq] at h
        rw [← h] at hs
        rcases List.mem_cons.mp hs with rfl | hs2
        · exact renderLine_bracesFree l ps s h1 (hl l (List.mem_cons_self l rest)) hp
        · exact ih ps rs h2 (fun x hx => hl x (List.mem_cons_of_mem l hx)) hp s hs2

theorem strJoin_bracesFree (sep : String) :
    ∀ (xs : List String), bracesFree sep = true → (∀ s ∈ xs, bracesFree s = true) →
      bracesFree (strJoin sep xs) = true := by
  intro xs
  induction xs with
  | nil => intro _ _; exact (by decide : bracesFree "" = true)
  | cons s rest ih =>
    intro hsep hall
    cases rest with
    | nil => exact hall s (List.mem_cons_self s [])
    | cons t rest2 =>
      have hs : strJoin sep (s :: t :: rest2) = s ++ sep ++ strJoin sep (t :: rest2) := rfl
      rw [hs, bracesFree_append, bracesFree_append, Bool.and_eq_true, Bool.and_eq_true]
      refine ⟨⟨hall s (List.mem_cons_self s (t :: rest2)), hsep⟩, ?_⟩
      exact ih hsep (fun x hx => hall x (List.mem_cons_of_mem s hx))

theorem strConcat_loop_bracesFree :
    ∀ (xs : List String) (acc : String), bracesFree acc = true →
      (∀ s ∈ xs, bracesFree s = true) →
      bracesFree (xs.foldl (fun acc s => acc ++ s) acc) = true := by
  intro xs
  induction xs with
  | nil => intro acc hacc _; exact hacc
  | cons s rest ih =>
    intro acc hacc hall
    rw [List.foldl_cons]
    refine ih (acc ++ s) ?_ (fun x hx => hall x (List.mem_cons_of_mem s hx))
    rw [bracesFree_append, Bool.and_eq_true]
    exact ⟨hacc, hall s (List.mem_cons_self s rest)⟩

theorem strConcat_bracesFree (xs : List String) (hall : ∀ s ∈ xs, bracesFree s = true) :
    bracesFree (strConcat xs) = true :=
  strConcat_loop_bracesFree xs "" (by decide) hall

/-- Every character produced by `Nat.toDigitsCore` is either from the
accumulator or a digit character of the base. -/
theorem toDigitsCore_chars (b : Nat) :
    ∀ (f n : Nat) (ds : List Char), ∀ c ∈ Nat.toDigitsCore b f n ds,
      c ∈ ds ∨ ∃ m, c = Nat.digitChar (m % b) := by
  intro f
  induction f with
  | zero => intro n ds c hc; exact Or.inl hc
  | succ f ih =>
    intro n ds c hc
    unfold Nat.toDigitsCore at hc
    dsimp only at hc
    split at hc
    · rcases List.mem_cons.mp hc with h | h
      · exact Or.inr ⟨n, h⟩
      · exact Or.inl h
    · rcases ih (n / b) (Nat.digitChar (n % b) :: ds) c hc with h | h
      · rcases List.mem_cons.mp h with h2 | h2
        · exact Or.inr ⟨n, h2⟩
        · exact Or.inl h2
      · exact Or.inr h

/-- The decimal rendering of a natural number never contains a brace. -/
theorem natToString_bracesFree (n : Nat) : bracesFree (toString n) = true := by
  rw [bracesFree, List.all_eq_true]
  intro c hc
  have hd : c ∈ Nat.toDigits 10 n := by
    have hc2 : c ∈ (Nat.repr n).data := hc
    simpa [Nat.repr] using hc2
  rcases toDigitsCore_chars 10 (n + 1) n [] c hd with h | ⟨m, rfl⟩
  · exact absurd h (List.not_mem_nil c)
  · have hlt : m % 10 < 10 := Nat.mod_lt m (by decide)
    have hall : ∀ k, k < 10 →
        (Nat.digitChar k != '\x7b' && Nat.digitChar k != '\x7d') = true := by decide
    exact hall (m % 10) hlt

/-- A placeholder whose name has no supplied value makes rendering fail
(`KeyError`), rather than being emitted literally. -/
theorem renderLine_missing_param :
    ∀ (cs : List Chunk) (ps : List (String × String)) (n : String),
      Chunk.ph n ∈ cs → ps.lookup n = none → renderLine cs ps = none := by
  intro cs
  induction cs with
  | nil => intro ps n h _; exact absurd h (List.not_mem_nil _)
  | cons c rest ih =>
    intro ps n h hlk
    cases c with
    | lit t =>
      have h2 : Chunk.ph n ∈ rest := by
        rcases List.mem_cons.mp h with h3 | h3
        · cases h3
        · exact h3
      rw [renderLine, ih ps n h2 hlk]
      rfl
    | ph m =>
      rcases List.mem_cons.mp h with h3 | h3
      · have hm : n = m := by cases h3; rfl
        rw [renderLine, ← hm, hlk]
      · rw [renderLine]
        cases hlkm : ps.lookup m with
        | none => rfl
        | some v => rw [ih ps n h3 hlk]; rfl

theorem yosys_params_bracesFree (nowidelut abc9 : Bool) (bn rf : String)
    (hbn : bracesFree bn = true) (hrf : bracesFree rf = true) :
    ∀ v ∈ (yosys_params nowidelut abc9 bn rf).map Prod.snd, bracesFree v = true := by
  intro v hv
  simp only [yosys_params, List.map_cons, List.map_nil, List.mem_cons,
    List.not_mem_nil, or_false] at hv
  rcases hv with rfl | rfl | rfl | rfl
  · exact hbn
  · cases nowidelut <;> decide
  · cases abc9 <;> decide
  · exact hrf

theorem build_script_params_bracesFree (bn dev fail_stmt : String)
    (ts il es : Bool) (seed : Nat)
    (hbn : bracesFree bn = true) (hdev : bracesFree dev = true)
    (hfail : bracesFree fail_stmt = true) :
    ∀ v ∈ (build_script_params bn dev ts il es seed fail_stmt).map Prod.snd,
      bracesFree v = true := by
  intro v hv
  simp only [build_script_params, List.map_cons, List.map_nil, List.mem_cons,
    List.not_mem_nil, or_false] at hv
  rcases hv with rfl | rfl | rfl | rfl | rfl | rfl
  · exact hbn
  · rw [bracesFree_append, Bool.and_eq_true]
    exact ⟨hdev, by cases es <;> decide⟩
  · cases ts <;> decide
  · cases il <;> decide
  · exact hfail
  · exact natToString_bracesFree seed

/-- C7: for every combination of build options, build name and
imported-sources text, rendering the synthesis template and the build
template succeeds — no `KeyError` — (parts 1 and 2); when the externally
supplied strings are brace-free, the produced script texts contain no brace
at all, hence no unsubstituted `{name}` placeholder (parts 3 and 4); and a
placeholder with no supplied value is a fatal rendering error instead of
being emitted literally (part 5). -/
theorem C7_every_placeholder_substituted :
    (∀ (nowidelut abc9 : Bool) (bn : String) (ip : List String)
       (srcs : List (String × String × String)),
       (build_project nowidelut abc9 bn ip srcs).isSome = true) ∧
    (∀ (sp rev bn dev : String) (ts il es : Bool) (seed : Nat),
       (build_script sp rev bn dev ts il es seed).isSome = true) ∧
    (∀ (nowidelut abc9 : Bool) (bn : String) (ip : List String)
       (srcs : List (String × String × String)) (text : String),
       bracesFree bn = true → bracesFree (_yosys_import_sources ip srcs) = true →
       (build_project nowidelut abc9 bn ip srcs).map Prod.snd = some text →
       bracesFree text = true) ∧
    (∀ (sp rev bn dev : String) (ts il es : Bool) (seed : Nat) (text : String),
       bracesFree rev = true → bracesFree bn = true → bracesFree dev = true →
       (build_script sp rev bn dev ts il es seed).map Prod.snd = some text →
       bracesFree text = true) ∧
    (∀ (cs : List Chunk) (ps : List (String × String)) (n : String),
       Chunk.ph n ∈ cs → ps.lookup n = none → renderLine cs ps = none) := by
  refine ⟨fun _ _ _ _ _ => rfl, fun _ _ _ _ _ _ _ _ => rfl, ?_, ?_, renderLine_missing_param⟩
  · intro nowidelut abc9 bn ip srcs text hbn hrf hmap
    cases hra : renderAll yosys_template
        (yosys_params nowidelut abc9 bn (_yosys_import_sources ip srcs)) with
    | none =>
      rw [build_project, hra] at hmap
      cases hmap
    | some ls =>
      rw [build_project, hra] at hmap
      simp only [Option.map_some', Option.some.injEq] at hmap
      rw [← hmap]
      refine strJoin_bracesFree "\n" ls (by decide) ?_
      refine renderAll_bracesFree yosys_template _ ls hra (by decide) ?_
      exact yosys_params_bracesFree nowidelut abc9 bn _ hbn hrf
  · intro sp rev bn dev ts il es seed text hrev hbn hdev hmap
    cases hra : build_script_lines sp bn dev ts il es seed with
    | none =>
      rw [build_script, hra] at hmap
      cases hmap
    | some ls =>
      rw [build_script, hra] at hmap
      simp only [Option.map_some', Option.some.injEq] at hmap
      rw [← hmap, bracesFree_append, Bool.and_eq_true]
      constructor
      · split
        · rw [bracesFree_append, bracesFree_append, Bool.and_eq_true, Bool.and_eq_true]
          exact ⟨⟨by decide, hrev⟩, by decide⟩
        · rw [bracesFree_append, bracesFree_append, Bool.and_eq_true, Bool.and_eq_true]
          exact ⟨⟨by decide, hrev⟩, by decide⟩
      · refine strConcat_bracesFree ls ?_
        rw [build_script_lines] at hra
        refine renderAll_bracesFree build_script_fail_lines _ ls hra (by decide) ?_
        refine build_script_params_bracesFree bn dev _ ts il es seed hbn hdev ?_
        split <;> decide

/-- Witness for C7 at concrete inputs: rendering succeeds, the produced
synthesis script is brace-free, and a template with an unsupplied
placeholder fails to render. -/
theorem C7_every_placeholder_substituted_witness :
    (build_project false false "top" [] [("top.v", "verilog", "work")]).isSome = true ∧
    bracesFree
      (((build_project false false "top" [] [("top.v", "verilog", "work")]).map
        Prod.snd).getD "") = true ∧
    renderLine [Chunk.ph "missing"] [] = none :=
  ⟨C7_every_placeholder_substituted.1 false false "top" [] [("top.v", "verilog", "work")],
   C7_every_placeholder_substituted.2.2.1 false false "top" [] [("top.v", "verilog", "work")]
     (((build_project false false "top" [] [("top.v", "verilog", "work")]).map
        Prod.snd).getD "") (by decide) (by decide) (by decide),
   C7_every_placeholder_substituted.2.2.2.2 [Chunk.ph "missing"] [] "missing"
     (List.mem_cons_self _ _) rfl⟩

end Oxide
